import Mathlib

/-!
# RenderCICD word service — verification of the HTTP handler layer

Shallow embedding of the two HTTP handlers of the RenderCICD repository
(`routes/Words.js`, mounted under `/api` by `server.mjs`) together with the
word-record data model (`models/Word.js`).

The persistence collaborator (MongoDB via mongoose) is modelled as a list of
records paired with a fresh-identifier counter; a persistence call may either
succeed or fail with an error string, which the handlers observe through a
`PersistOutcome` parameter.  Request bodies are JSON scalars (`JsValue`), so
that JavaScript falsiness of `req.body.word` can be stated faithfully.
-/

namespace RenderCICD

/-- A JSON scalar value as it can appear in the `word` field of a parsed
request body.  `undefined` stands for an absent field (destructuring a missing
key in JavaScript yields `undefined`). -/
inductive JsValue where
  | undefined
  | null
  | bool (b : Bool)
  | num (n : Int)
  | str (s : String)
deriving Repr, DecidableEq

/-- JavaScript falsiness of a scalar: the condition tested by `if (!word)` in
the `addWord` handler.  `undefined`, `null`, `false`, `0` and `""` are falsy. -/
def JsValue.isFalsy : JsValue → Bool
  | .undefined => true
  | .null => true
  | .bool b => !b
  | .num n => n == 0
  | .str s => s.isEmpty

/-- The string that mongoose's `String` cast produces for the scalar when it is
stored as the `value` of a word record (`new Word({ value: word })`). -/
def JsValue.toWordString : JsValue → String
  | .undefined => "undefined"
  | .null => "null"
  | .bool b => if b then "true" else "false"
  | .num n => toString n
  | .str s => s

/-- A stored word record: the `value` field required by `wordSchema` in
`models/Word.js`, plus the storage-assigned identifier. -/
structure WordRecord where
  id : Nat
  value : String
deriving Repr, DecidableEq

/-- The document store holding the flat collection of word records, with the
counter from which the next storage-assigned identifier is drawn. -/
structure Store where
  records : List WordRecord
  nextId : Nat
deriving Repr, DecidableEq

/-- The empty store. -/
def Store.empty : Store := ⟨[], 0⟩

/-- Effect of a successful `newWord.save()`: one new record with the given
`value` is appended and the identifier counter advances. -/
def Store.insertWord (s : Store) (v : String) : Store :=
  ⟨s.records ++ [⟨s.nextId, v⟩], s.nextId + 1⟩

/-- The JSON body of an HTTP response produced by the handlers. -/
inductive ResponseBody where
  | messageBody (msg : String)
  | errorBody (err : String)
  | wordList (ws : List WordRecord)
deriving Repr, DecidableEq

/-- An HTTP response: status code and JSON body.  `res.json(x)` without an
explicit status uses 200. -/
structure Response where
  status : Nat
  body : ResponseBody
deriving Repr, DecidableEq

/-- Outcome of a call into the persistence collaborator: the awaited promise
either resolves or rejects with an error (carried as its string rendering). -/
inductive PersistOutcome where
  | success
  | failure (err : String)
deriving Repr, DecidableEq

/-- Everything observable about one handler invocation: the HTTP response, the
store after the request, what (if anything) was logged via `console.error`,
and whether a persistence call was issued at all. -/
structure HandlerResult where
  response : Response
  store : Store
  logged : Option String
  persistAttempted : Bool
deriving Repr, DecidableEq

/-- The `addWord` handler of `routes/Words.js`
(`router.post('/addWord', ...)`): destructure `word` from `req.body`; if it is
falsy, reply 400 `{error: 'Word is required'}` without touching the store;
otherwise save a new record with `value` set to the word and reply
`{message: 'Word added successfully'}` (status 200), or on a rejected save log
`'Error adding word:'` with the error and reply 500
`{error: 'Error adding word'}`. -/
def addWord (s : Store) (word : JsValue) (outcome : PersistOutcome) : HandlerResult :=
  if word.isFalsy then
    { response := ⟨400, ResponseBody.errorBody "Word is required"⟩
      store := s
      logged := none
      persistAttempted := false }
  else
    match outcome with
    | .success =>
        { response := ⟨200, ResponseBody.messageBody "Word added successfully"⟩
          store := s.insertWord word.toWordString
          logged := none
          persistAttempted := true }
    | .failure err =>
        { response := ⟨500, ResponseBody.errorBody "Error adding word"⟩
          store := s
          logged := some ("Error adding word: " ++ err)
          persistAttempted := true }

/-- The `viewWords` handler of `routes/Words.js`
(`router.get('/viewWords', ...)`): `Word.find()` retrieves every record; on
success reply with the full array (status 200); on failure log
`'Error fetching words:'` with the error and reply 500
`{error: 'Error fetching words'}`.  The handler performs no write, so the
store is unchanged. -/
def viewWords (s : Store) (outcome : PersistOutcome) : HandlerResult :=
  match outcome with
  | .success =>
      { response := ⟨200, ResponseBody.wordList s.records⟩
        store := s
        logged := none
        persistAttempted := true }
  | .failure err =>
      { response := ⟨500, ResponseBody.errorBody "Error fetching words"⟩
        store := s
        logged := some ("Error fetching words: " ++ err)
        persistAttempted := true }

/-- An HTTP method, as registered on the express router. -/
inductive Method where
  | get
  | post
deriving Repr, DecidableEq

/-- A route registered on the express router: method and path pattern.
Neither pattern registered in `routes/Words.js` contains a path parameter. -/
structure Route where
  method : Method
  path : String
deriving Repr, DecidableEq

/-- The routes registered in `routes/Words.js`:
`router.post('/addWord', ...)` and `router.get('/viewWords', ...)`. -/
def wordRouterRoutes : List Route :=
  [⟨Method.post, "/addWord"⟩, ⟨Method.get, "/viewWords"⟩]

/-- Express dispatch over the registered routes (paths without parameters
match the request path exactly): the first registered route with the request's
method and path, if any.  A request matching no route falls through (404). -/
def dispatch (m : Method) (p : String) : Option Route :=
  wordRouterRoutes.find? fun r => r.method == m && r.path == p

/-- A request to the service: either an insertion carrying the `word` field of
its JSON body, or a listing. -/
inductive ApiRequest where
  | addWordReq (body : JsValue)
  | viewWordsReq
deriving Repr, DecidableEq

/-- One request/response transaction of the service. -/
def serviceStep (s : Store) (req : ApiRequest) (outcome : PersistOutcome) :
    HandlerResult :=
  match req with
  | .addWordReq v => addWord s v outcome
  | .viewWordsReq => viewWords s outcome

theorem toDigitsCore_cons_ne_nil (b f n : Nat) (c : Char) (ds : List Char) :
    Nat.toDigitsCore b f n (c :: ds) ≠ [] := by
  intro h
  have h2 := Nat.toDigitsCore_lens_eq b f n c ds
  rw [h] at h2
  simp at h2

theorem toDigits_ne_nil (b n : Nat) : Nat.toDigits b n ≠ [] := by
  show Nat.toDigitsCore b (n + 1) n [] ≠ []
  rw [Nat.toDigitsCore]
  split
  · exact List.cons_ne_nil _ _
  · exact toDigitsCore_cons_ne_nil b n (n / b) _ []

theorem natRepr_ne_empty (n : Nat) : Nat.repr n ≠ "" := by
  intro h
  refine toDigits_ne_nil 10 n ?_
  simpa [List.asString, Nat.repr] using congrArg String.data h

theorem intRepr_ne_empty (n : Int) : Int.repr n ≠ "" := by
  cases n with
  | ofNat m => exact natRepr_ne_empty m
  | negSucc m =>
      show "-" ++ Nat.repr (m + 1) ≠ ""
      intro h
      have h2 := congrArg String.data h
      simp [String.data_append] at h2

/-- A truthy scalar casts to a non-empty `value` string. -/
theorem toWordString_ne_empty (v : JsValue) (hv : v.isFalsy = false) :
    v.toWordString ≠ "" := by
  cases v with
  | undefined => simp [JsValue.isFalsy] at hv
  | null => simp [JsValue.isFalsy] at hv
  | bool b =>
      cases b with
      | false => simp [JsValue.isFalsy] at hv
      | true => simp [JsValue.toWordString]
  | num n => exact intRepr_ne_empty n
  | str s =>
      simp only [JsValue.isFalsy] at hv
      show s ≠ ""
      intro h
      subst h
      exact absurd hv (by decide)

theorem isFalsy_str_false (w : String) (hw : w ≠ "") :
    (JsValue.str w).isFalsy = false := by
  show w.isEmpty = false
  rw [← Bool.not_eq_true, String.isEmpty_iff]
  exact hw

/-- C1: for every non-empty string `w`, inserting `w` (persistence
succeeding) and then listing (retrieval succeeding) yields a listing response
whose array contains at least one record whose `value` equals `w`. -/
theorem addWord_then_viewWords_contains (s : Store) (w : String) (hw : w ≠ "") :
    (viewWords (addWord s (JsValue.str w) PersistOutcome.success).store
        PersistOutcome.success).response.status = 200 ∧
    ∃ ws,
      (viewWords (addWord s (JsValue.str w) PersistOutcome.success).store
          PersistOutcome.success).response.body = ResponseBody.wordList ws ∧
      ∃ r ∈ ws, r.value = w := by
  have hfal := isFalsy_str_false w hw
  refine ⟨?_, s.records ++ [⟨s.nextId, w⟩], ?_, ⟨s.nextId, w⟩, ?_, rfl⟩ <;>
    simp [addWord, hfal, viewWords, Store.insertWord, JsValue.toWordString]

theorem addWord_then_viewWords_contains_witness :
    (viewWords (addWord Store.empty (JsValue.str "testword")
        PersistOutcome.success).store PersistOutcome.success).response.status = 200 ∧
    ∃ ws,
      (viewWords (addWord Store.empty (JsValue.str "testword")
          PersistOutcome.success).store
          PersistOutcome.success).response.body = ResponseBody.wordList ws ∧
      ∃ r ∈ ws, r.value = "testword" :=
  addWord_then_viewWords_contains Store.empty "testword" (by decide)

/-- C2: the claim says word insertion is bound to `GET /api/addWord/{word}`
with the word taken as a path segment; the code instead registers
`POST /addWord` and reads the word from the request body, so the repo's own
test request `GET /api/addWord/testword` matches no registered route. -/
theorem addWord_route_is_post_not_get :
    dispatch Method.get "/addWord/testword" = none ∧
    dispatch Method.post "/addWord" = some ⟨Method.post, "/addWord"⟩ ∧
    (wordRouterRoutes.filter fun r => r.method == Method.get) =
      [⟨Method.get, "/viewWords"⟩] := by
  refine ⟨?_, ?_, ?_⟩ <;> decide

/-- C3: an insertion request whose word is missing (`undefined`) or the empty
string gets status 400 with body `{error: "Word is required"}`, leaves the
store unchanged, attempts no persistence call, and logs nothing. -/
theorem addWord_missing_or_empty (s : Store) (v : JsValue) (p : PersistOutcome)
    (hv : v = JsValue.undefined ∨ v = JsValue.str "") :
    (addWord s v p).response.status = 400 ∧
    (addWord s v p).response.body = ResponseBody.errorBody "Word is required" ∧
    (addWord s v p).store = s ∧
    (addWord s v p).persistAttempted = false ∧
    (addWord s v p).logged = none := by
  have hfal : v.isFalsy = true := by
    rcases hv with rfl | rfl <;> decide
  simp [addWord, hfal]

theorem addWord_missing_or_empty_witness :
    (addWord Store.empty (JsValue.str "") PersistOutcome.success).response.status = 400 ∧
    (addWord Store.empty (JsValue.str "") PersistOutcome.success).response.body =
      ResponseBody.errorBody "Word is required" ∧
    (addWord Store.empty (JsValue.str "") PersistOutcome.success).store = Store.empty ∧
    (addWord Store.empty (JsValue.str "") PersistOutcome.success).persistAttempted = false ∧
    (addWord Store.empty (JsValue.str "") PersistOutcome.success).logged = none :=
  addWord_missing_or_empty Store.empty (JsValue.str "") PersistOutcome.success
    (Or.inr rfl)

/-- C4: an insertion request with a non-empty word `w` whose persistence call
succeeds stores exactly one new record with value `w` (appended to the
previous records) and responds 200 `{message: "Word added successfully"}`. -/
theorem addWord_success_appends_one (s : Store) (w : String) (hw : w ≠ "") :
    (addWord s (JsValue.str w) PersistOutcome.success).response =
      ⟨200, ResponseBody.messageBody "Word added successfully"⟩ ∧
    (addWord s (JsValue.str w) PersistOutcome.success).store.records =
      s.records ++ [⟨s.nextId, w⟩] := by
  have hfal := isFalsy_str_false w hw
  simp [addWord, hfal, Store.insertWord, JsValue.toWordString]

theorem addWord_success_appends_one_witness :
    (addWord Store.empty (JsValue.str "testword") PersistOutcome.success).response =
      ⟨200, ResponseBody.messageBody "Word added successfully"⟩ ∧
    (addWord Store.empty (JsValue.str "testword")
        PersistOutcome.success).store.records =
      Store.empty.records ++ [⟨Store.empty.nextId, "testword"⟩] :=
  addWord_success_appends_one Store.empty "testword" (by decide)

/-- C5: when the persistence call of an insertion request rejects, the handler
responds 500 with exactly the fixed body `{error: "Error adding word"}` — the
response is the same constant whatever the underlying error `err` is, so no
detail of the failure is leaked — the original error is logged server-side,
and no record is created. -/
theorem addWord_failure_generic_500 (s : Store) (v : JsValue) (err : String)
    (hv : v.isFalsy = false) :
    (addWord s v (PersistOutcome.failure err)).response =
      ⟨500, ResponseBody.errorBody "Error adding word"⟩ ∧
    (addWord s v (PersistOutcome.failure err)).logged =
      some ("Error adding word: " ++ err) ∧
    (addWord s v (PersistOutcome.failure err)).store = s := by
  simp [addWord, hv]

theorem addWord_failure_generic_500_witness :
    (addWord Store.empty (JsValue.str "w")
        (PersistOutcome.failure "ECONNREFUSED")).response =
      ⟨500, ResponseBody.errorBody "Error adding word"⟩ ∧
    (addWord Store.empty (JsValue.str "w")
        (PersistOutcome.failure "ECONNREFUSED")).logged =
      some ("Error adding word: " ++ "ECONNREFUSED") ∧
    (addWord Store.empty (JsValue.str "w")
        (PersistOutcome.failure "ECONNREFUSED")).store = Store.empty :=
  addWord_failure_generic_500 Store.empty (JsValue.str "w") "ECONNREFUSED" (by decide)

/-- C6: a listing request whose retrieval succeeds responds 200 with the array
of all stored records (each a `WordRecord`, so carrying both `value` and the
storage-assigned identifier `id`); in particular on the empty store it
responds 200 with the empty array. -/
theorem viewWords_success_all_records (s : Store) :
    (viewWords s PersistOutcome.success).response.status = 200 ∧
    (viewWords s PersistOutcome.success).response.body =
      ResponseBody.wordList s.records ∧
    (viewWords Store.empty PersistOutcome.success).response =
      ⟨200, ResponseBody.wordList []⟩ := by
  simp [viewWords, Store.empty]

/-- C7: a listing request whose retrieval fails responds 500 with exactly the
fixed body `{error: "Error fetching words"}` — the same constant whatever the
underlying error `err` is — and the failure is logged server-side. -/
theorem viewWords_failure_generic_500 (s : Store) (err : String) :
    (viewWords s (PersistOutcome.failure err)).response =
      ⟨500, ResponseBody.errorBody "Error fetching words"⟩ ∧
    (viewWords s (PersistOutcome.failure err)).logged =
      some ("Error fetching words: " ++ err) := by
  simp [viewWords]

/-- C8: every service operation preserves the invariant that every stored
record has a non-empty `value`, and never updates or deletes a record: the
previous record list is a prefix of the new one, and the list either is
unchanged or gains exactly one record appended by a successful insertion of a
truthy word. -/
theorem serviceStep_invariant (s : Store) (req : ApiRequest) (p : PersistOutcome)
    (hinv : ∀ r ∈ s.records, r.value ≠ "") :
    (∀ r ∈ (serviceStep s req p).store.records, r.value ≠ "") ∧
    s.records <+: (serviceStep s req p).store.records ∧
    ((serviceStep s req p).store.records = s.records ∨
      ∃ v, req = ApiRequest.addWordReq v ∧ p = PersistOutcome.success ∧
        v.isFalsy = false ∧
        (serviceStep s req p).store.records =
          s.records ++ [⟨s.nextId, v.toWordString⟩]) := by
  cases req with
  | viewWordsReq =>
      cases p <;> exact ⟨hinv, List.prefix_refl _, Or.inl rfl⟩
  | addWordReq v =>
      by_cases hfal : v.isFalsy = true
      · have hst : (serviceStep s (ApiRequest.addWordReq v) p).store = s := by
          simp [serviceStep, addWord, hfal]
        rw [hst]
        exact ⟨hinv, List.prefix_refl _, Or.inl rfl⟩
      · rw [Bool.not_eq_true] at hfal
        cases p with
        | success =>
            have hst : (serviceStep s (ApiRequest.addWordReq v)
                PersistOutcome.success).store = s.insertWord v.toWordString := by
              simp [serviceStep, addWord, hfal]
            rw [hst]
            refine ⟨?_, List.prefix_append _ _, Or.inr ⟨v, rfl, rfl, hfal, rfl⟩⟩
            intro r hr
            rcases List.mem_append.mp hr with hr | hr
            · exact hinv r hr
            · rcases List.mem_singleton.mp hr with rfl
              exact toWordString_ne_empty v hfal
        | failure err =>
            have hst : (serviceStep s (ApiRequest.addWordReq v)
                (PersistOutcome.failure err)).store = s := by
              simp [serviceStep, addWord, hfal]
            rw [hst]
            exact ⟨hinv, List.prefix_refl _, Or.inl rfl⟩

theorem serviceStep_invariant_witness :
    (∀ r ∈ (serviceStep Store.empty (ApiRequest.addWordReq (JsValue.str "hi"))
        PersistOutcome.success).store.records, r.value ≠ "") ∧
    Store.empty.records <+:
      (serviceStep Store.empty (ApiRequest.addWordReq (JsValue.str "hi"))
        PersistOutcome.success).store.records ∧
    ((serviceStep Store.empty (ApiRequest.addWordReq (JsValue.str "hi"))
        PersistOutcome.success).store.records = Store.empty.records ∨
      ∃ v, ApiRequest.addWordReq (JsValue.str "hi") = ApiRequest.addWordReq v ∧
        PersistOutcome.success = PersistOutcome.success ∧
        v.isFalsy = false ∧
        (serviceStep Store.empty (ApiRequest.addWordReq (JsValue.str "hi"))
            PersistOutcome.success).store.records =
          Store.empty.records ++ [⟨Store.empty.nextId, v.toWordString⟩]) :=
  serviceStep_invariant Store.empty (ApiRequest.addWordReq (JsValue.str "hi"))
    PersistOutcome.success (by simp [Store.empty])

/-- C9: insertion deduplicates nothing: inserting the same non-empty word `w`
twice, both persistence calls succeeding, creates two distinct stored records
whose values both equal `w`, and the subsequent successful listing returns the
full record list containing both. -/
theorem addWord_twice_no_dedup (s : Store) (w : String) (hw : w ≠ "") :
    ∃ r1 r2 : WordRecord,
      r1 ≠ r2 ∧ r1.value = w ∧ r2.value = w ∧
      r1 ∈ (addWord (addWord s (JsValue.str w) PersistOutcome.success).store
        (JsValue.str w) PersistOutcome.success).store.records ∧
      r2 ∈ (addWord (addWord s (JsValue.str w) PersistOutcome.success).store
        (JsValue.str w) PersistOutcome.success).store.records ∧
      (viewWords (addWord (addWord s (JsValue.str w) PersistOutcome.success).store
          (JsValue.str w) PersistOutcome.success).store
        PersistOutcome.success).response.body =
      ResponseBody.wordList
        (addWord (addWord s (JsValue.str w) PersistOutcome.success).store
          (JsValue.str w) PersistOutcome.success).store.records := by
  have hfal := isFalsy_str_false w hw
  refine ⟨⟨s.nextId, w⟩, ⟨s.nextId + 1, w⟩, ?_, rfl, rfl, ?_, ?_, ?_⟩ <;>
    simp [addWord, hfal, viewWords, Store.insertWord, JsValue.toWordString]

theorem addWord_twice_no_dedup_witness :
    ∃ r1 r2 : WordRecord,
      r1 ≠ r2 ∧ r1.value = "dup" ∧ r2.value = "dup" ∧
      r1 ∈ (addWord (addWord Store.empty (JsValue.str "dup")
          PersistOutcome.success).store
        (JsValue.str "dup") PersistOutcome.success).store.records ∧
      r2 ∈ (addWord (addWord Store.empty (JsValue.str "dup")
          PersistOutcome.success).store
        (JsValue.str "dup") PersistOutcome.success).store.records ∧
      (viewWords (addWord (addWord Store.empty (JsValue.str "dup")
            PersistOutcome.success).store
          (JsValue.str "dup") PersistOutcome.success).store
        PersistOutcome.success).response.body =
      ResponseBody.wordList
        (addWord (addWord Store.empty (JsValue.str "dup")
            PersistOutcome.success).store
          (JsValue.str "dup") PersistOutcome.success).store.records :=
  addWord_twice_no_dedup Store.empty "dup" (by decide)

/-- C10: the presence check is JavaScript falsiness of the body field `word`:
each falsy scalar — absent field, empty string, `null`, `false`, `0` — is
rejected with 400 `{error: "Word is required"}` with no persistence call, even
though `0` and `false` would cast to the non-empty strings "0" and "false". -/
theorem addWord_rejects_every_falsy (s : Store) (p : PersistOutcome) (v : JsValue)
    (hv : v = JsValue.undefined ∨ v = JsValue.str "" ∨ v = JsValue.null ∨
      v = JsValue.bool false ∨ v = JsValue.num 0) :
    v.isFalsy = true ∧
    (addWord s v p).response.status = 400 ∧
    (addWord s v p).response.body = ResponseBody.errorBody "Word is required" ∧
    (addWord s v p).persistAttempted = false ∧
    (addWord s v p).store = s ∧
    JsValue.toWordString (JsValue.num 0) ≠ "" ∧
    JsValue.toWordString (JsValue.bool false) ≠ "" := by
  have hfal : v.isFalsy = true := by
    rcases hv with rfl | rfl | rfl | rfl | rfl <;> decide
  refine ⟨hfal, ?_, ?_, ?_, ?_, by decide, by decide⟩ <;> simp [addWord, hfal]

theorem addWord_rejects_every_falsy_witness :
    (JsValue.num 0).isFalsy = true ∧
    (addWord Store.empty (JsValue.num 0) PersistOutcome.success).response.status = 400 ∧
    (addWord Store.empty (JsValue.num 0) PersistOutcome.success).response.body =
      ResponseBody.errorBody "Word is required" ∧
    (addWord Store.empty (JsValue.num 0)
        PersistOutcome.success).persistAttempted = false ∧
    (addWord Store.empty (JsValue.num 0) PersistOutcome.success).store = Store.empty ∧
    JsValue.toWordString (JsValue.num 0) ≠ "" ∧
    JsValue.toWordString (JsValue.bool false) ≠ "" :=
  addWord_rejects_every_falsy Store.empty PersistOutcome.success (JsValue.num 0)
    (Or.inr (Or.inr (Or.inr (Or.inr rfl))))

end RenderCICD
